import Mathlib

/-!
Verification of the configuration core of `img-setup` (setup_img.py and
modules/master.py) against its natural-language specification.

The Python functions are shallowly embedded: settings records become
functions from key strings to optional values, the filesystem becomes a
function from path strings to optional contents, exceptions become an
explicit `Except` error type, and straight-line statement sequences whose
exceptions propagate become an explicit sequencer over statement lists.
-/

/-- Python exceptions that appear in the modelled code paths. -/
inductive PyErr where
| typeError : PyErr
| keyError : String → PyErr
| nameError : String → PyErr
| indexError : PyErr
| fileNotFound : String → PyErr
deriving DecidableEq

/-- Python values stored in the settings dictionary (strings, booleans, None). -/
inductive PyVal where
| str : String → PyVal
| bool : Bool → PyVal
| pyNone : PyVal
deriving DecidableEq

/-- The settings dictionary: a key either maps to a value or is absent
(a lookup of an absent key raises KeyError in the source). -/
def Settings : Type := String → Option PyVal

/-- A filesystem snapshot: a path either holds file contents or is absent. -/
def FS : Type := String → Option String

/-- Writing a file: `open(p, "w+")` followed by `write(c)`. -/
def fs_write (fs : FS) (p c : String) : FS :=
  fun q => if q = p then some c else fs q

/-! ## setup_img.py, arch_chroot (lines 94-115) and de_chroot (lines 117-130) -/

/-- Embeds lines 97-98 of setup_img.py: when the target path ends in "/",
the source keeps `path_dir[0:len(path_dir) - 2]`, i.e. it drops the final
TWO characters (the off-by-one of the original is preserved here). -/
def strip_trailing_slash (p : String) : String :=
  if p.data.getLast? = some '/' then String.mk (p.data.take (p.data.length - 2)) else p

/-- The target paths mounted by arch_chroot, in source order (lines 99-112):
proc, sys, efivars when the efivars directory exists, dev, dev/pts, dev/shm,
run, tmp.  The existence test for efivars is abstracted into the Boolean
`efivars_present`. -/
def chroot_mount_targets (path_dir : String) (efivars_present : Bool) : List String :=
  let d := strip_trailing_slash path_dir
  [d ++ "/proc", d ++ "/sys"]
    ++ (if efivars_present then [d ++ "/sys/firmware/efi/efivars"] else [])
    ++ [d ++ "/dev", d ++ "/dev/pts", d ++ "/dev/shm", d ++ "/run", d ++ "/tmp"]

/-- The target paths unmounted by de_chroot, in source order (lines 119-127):
proc, sys, efivars when the efivars directory exists, dev, dev/pts, dev/shm,
run, tmp.  de_chroot applies no trailing-slash normalization. -/
def de_chroot_unmount_targets (path_dir : String) (efivars_present : Bool) : List String :=
  [path_dir ++ "/proc", path_dir ++ "/sys"]
    ++ (if efivars_present then [path_dir ++ "/sys/firmware/efi/efivars"] else [])
    ++ [path_dir ++ "/dev", path_dir ++ "/dev/pts", path_dir ++ "/dev/shm",
        path_dir ++ "/run", path_dir ++ "/tmp"]

/-! ## modules/master.py, _install_grub (lines 210-228) -/

/-- Embeds the parent-disk derivation of _install_grub (lines 214-223): walk
the root device path from its end deleting characters while `int(...)`
succeeds (ASCII digits), stopping at the first non-digit; then, if the last
remaining character is "p", delete it; `root[-1]` on an empty result would
raise IndexError. -/
def grub_parent_disk (root : String) : Except PyErr String :=
  let stripped := (root.data.reverse.dropWhile Char.isDigit).reverse
  match stripped.getLast? with
  | none => Except.error PyErr.indexError
  | some c => Except.ok (String.mk (if c = 'p' then stripped.dropLast else stripped))

/-! ## modules/master.py, install_bootloader (lines 197-207) -/

/-- Whether the haystack starts with the needle (character lists). -/
def hasPre : List Char → List Char → Bool
| [], _ => true
| _ :: _, [] => false
| a :: as, b :: bs => a == b && hasPre as bs

/-- The Python substring test `needle in haystack` on character lists. -/
def pyIn (needle : List Char) : List Char → Bool
| [] => hasPre needle []
| b :: bs => hasPre needle (b :: bs) || pyIn needle bs

/-- The Python test `needle in haystack` for String. -/
def str_in (needle hay : String) : Bool := pyIn needle.data hay.data

/-- The outward effect chosen by install_bootloader. -/
inductive BootAction where
| systemdBoot : String → String → BootAction
| grubFamily : String → String → BootAction
| ubootPackage : String → BootAction
| noAction : BootAction
deriving DecidableEq

/-- Embeds install_bootloader (lines 197-207): an if/elif/elif chain with no
else branch, so an unrecognized identifier selects no action and the function
returns normally. -/
def install_bootloader (bootloader root release : String) : BootAction :=
  if bootloader = "systemd-boot" then BootAction.systemdBoot release root
  else if str_in "grub" bootloader then BootAction.grubFamily bootloader root
  else if bootloader = "u-boot-rockchip" ∨ bootloader = "u-boot-rpi"
      ∨ bootloader = "u-boot-tegra" then BootAction.ubootPackage bootloader
  else BootAction.noAction

/-! ## modules/master.py, check_systemd_boot entry verification (lines 295-336) -/

/-- Path of the primary systemd-boot entry file (line 304). -/
def main_entry_path : String := "/boot/efi/loader/entries/Drauger_OS.conf"

/-- Path of the recovery systemd-boot entry file (line 321). -/
def recovery_entry_path : String := "/boot/efi/loader/entries/Drauger_OS_Recovery.conf"

/-- Kernel flags of the primary entry (line 298). -/
def root_flags : String := "quiet splash"

/-- Kernel flags of the recovery entry (line 299). -/
def recovery_flags : String := "ro recovery nomodeset"

/-- Contents written for the primary entry (lines 308-312). -/
def main_entry_text (uuid : String) : String :=
  "title   Drauger OS\nlinux   /Drauger_OS/vmlinuz\ninitrd  /Drauger_OS/initrd.img\noptions root=PARTUUID="
    ++ uuid ++ " " ++ root_flags

/-- Contents written for the recovery entry (lines 325-329). -/
def recovery_entry_text (uuid : String) : String :=
  "title   Drauger OS Recovery\nlinux   /Drauger_OS/vmlinuz\ninitrd  /Drauger_OS/initrd.img\noptions root=PARTUUID="
    ++ uuid ++ " " ++ recovery_flags

/-- Embeds the boot-entry verification step of check_systemd_boot
(lines 303-336): write the primary entry only if its file does not exist,
then write the recovery entry only if its file does not exist, both
referencing the same UUID. -/
def verify_entries (uuid : String) (fs : FS) : FS :=
  let fs1 :=
    if fs main_entry_path = none
    then fs_write fs main_entry_path (main_entry_text uuid) else fs
  if fs1 recovery_entry_path = none
  then fs_write fs1 recovery_entry_path (recovery_entry_text uuid) else fs1

/-! ## setup_img.py, keyboard defaulting pass (lines 485-505) -/

/-- The "no configuration" keyboard model literal (lines 489, 491, 493, 500). -/
def no_config_model : String := "Do not configure keyboard; keep kernel keymap"

/-- The default layout/varient literal (lines 496, 498, 503, 505). -/
def english_us : String := "English (US)"

/-- The Python membership test `value in ("", None)` used by the defaulting
pass. -/
def empty_or_none : PyVal → Bool
| PyVal.str v => v = ""
| PyVal.pyNone => true
| PyVal.bool _ => false

/-- Dictionary assignment `settings[k] = v`. -/
def set_setting (s : Settings) (k : String) (v : PyVal) : Settings :=
  fun q => if q = k then some v else s q

/-- Embeds lines 485-491: MODEL is defaulted to the no-configuration literal
when it is absent (the KeyError handler) or empty/None. -/
def default_model (s : Settings) : Settings :=
  match s "MODEL" with
  | none => set_setting s "MODEL" (PyVal.str no_config_model)
  | some v =>
    if empty_or_none v then set_setting s "MODEL" (PyVal.str no_config_model) else s

/-- Embeds lines 492-498: inside the try block, LAYOUT is defaulted only
when it is empty/None AND the model is not the no-configuration literal
(the `and` short-circuits, so MODEL is only read when LAYOUT is empty/None);
but a KeyError — raised when LAYOUT is absent, or when MODEL is absent while
LAYOUT is empty/None — lands in the handler, which assigns the default
UNCONDITIONALLY. -/
def default_layout (s : Settings) : Settings :=
  match s "LAYOUT" with
  | none => set_setting s "LAYOUT" (PyVal.str english_us)
  | some v =>
    if empty_or_none v then
      match s "MODEL" with
      | none => set_setting s "LAYOUT" (PyVal.str english_us)
      | some m =>
        if m ≠ PyVal.str no_config_model
        then set_setting s "LAYOUT" (PyVal.str english_us) else s
    else s

/-- Embeds lines 499-505: identical to the LAYOUT pass but for the VARIENT
key (the source spells the key "VARIENT"). -/
def default_varient (s : Settings) : Settings :=
  match s "VARIENT" with
  | none => set_setting s "VARIENT" (PyVal.str english_us)
  | some v =>
    if empty_or_none v then
      match s "MODEL" with
      | none => set_setting s "VARIENT" (PyVal.str english_us)
      | some m =>
        if m ≠ PyVal.str no_config_model
        then set_setting s "VARIENT" (PyVal.str english_us) else s
    else s

/-- The keyboard portion of the defaulting pass, in source order:
MODEL (lines 485-491), then LAYOUT (492-498), then VARIENT (499-505). -/
def keyboard_defaulting (s : Settings) : Settings :=
  default_varient (default_layout (default_model s))

/-- A settings record whose MODEL is the no-configuration literal and whose
LAYOUT and VARIENT keys are absent. -/
def c10_settings : Settings :=
  fun k => if k = "MODEL" then some (PyVal.str no_config_model) else none

/-! ## setup_img.py, configuration_procedure chroot section (lines 506-520) -/

/-- The statements of configuration_procedure from the chdir into the image
through the final unmount (lines 507-520), as named steps. -/
inductive InstallStmt where
| chdir_mnt : InstallStmt
| arch_chroot_enter : InstallStmt
| progress_update : Nat → InstallStmt
| master_install : InstallStmt
| de_chroot_exit : InstallStmt
| cleanup_staged_files : InstallStmt
| restore_resolv_conf : InstallStmt
| unmount_image : InstallStmt
deriving DecidableEq

/-- Python straight-line sequencing without try/finally: each statement runs
in order; a statement that raises is the last one entered, every later
statement is skipped, and the exception propagates to the caller.  Returns
the list of statements entered and the propagated exception, if any. -/
def run_straight_line (outcome : InstallStmt → Except PyErr Unit) :
    List InstallStmt → List InstallStmt × Option PyErr
| [] => ([], none)
| s :: rest =>
  match outcome s with
  | Except.error e => ([s], some e)
  | Except.ok _ =>
    let r := run_straight_line outcome rest
    (s :: r.1, r.2)

/-- The statement sequence of lines 507-520 of configuration_procedure:
chdir("/mnt"); real_root = arch_chroot("/mnt"); __update__(19);
modules.master.install(settings, True); de_chroot(real_root, "/mnt");
then cleanup of staged files, restoration of resolv.conf, and the final
unmount.  No statement is wrapped in try/finally. -/
def chroot_segment : List InstallStmt :=
  [InstallStmt.chdir_mnt, InstallStmt.arch_chroot_enter, InstallStmt.progress_update 19,
   InstallStmt.master_install, InstallStmt.de_chroot_exit, InstallStmt.cleanup_staged_files,
   InstallStmt.restore_resolv_conf, InstallStmt.unmount_image]

/-- An outcome assignment in which the work done inside the chroot
(master.install) raises and everything else would succeed. -/
def c1_fault_outcome : InstallStmt → Except PyErr Unit :=
  fun s => if s = InstallStmt.master_install
           then Except.error PyErr.typeError else Except.ok ()

/-! ## modules/master.py, argument resolution and the install entry point -/

/-- Evaluates `[settings[k] for k in keys]` left to right: the first absent
key raises KeyError naming it (master.py line 61 and the call on line 404
both index the settings dictionary this way). -/
def resolve_settings_args (s : Settings) : List String → Except PyErr (List PyVal)
| [] => Except.ok []
| k :: ks =>
  match s k with
  | none => Except.error (PyErr.keyError k)
  | some v =>
    match resolve_settings_args s ks with
    | Except.error e => Except.error e
    | Except.ok vs => Except.ok (v :: vs)

/-- The parameter list of setup_lowlevel (line 284): `def setup_lowlevel(efi, root)`. -/
def setup_lowlevel_param_names : List String := ["efi", "root"]

/-- The keys whose values install passes to setup_lowlevel (line 404):
settings["EFI"], settings["ROOT"], settings["bootloader package"]. -/
def install_lowlevel_arg_keys : List String := ["EFI", "ROOT", "bootloader package"]

/-- Binding positional call arguments to parameters in Python: with no
defaults and no varargs, a call whose argument count differs from the
parameter count raises TypeError before the body runs. -/
def bind_call_args (param_names : List String) (args : List PyVal) :
    Except PyErr (List (String × PyVal)) :=
  if param_names.length = args.length
  then Except.ok (param_names.zip args) else Except.error PyErr.typeError

/-- Embeds the final statement of install (line 404): evaluate the three
settings lookups left to right, then bind them to the two
parameters of setup_lowlevel.  Only a successful binding would reach its body
(the kernel/bootloader stage). -/
def install_lowlevel_call (s : Settings) : Except PyErr (List (String × PyVal)) :=
  match resolve_settings_args s install_lowlevel_arg_keys with
  | Except.error e => Except.error e
  | Except.ok vals => bind_call_args setup_lowlevel_param_names vals

/-! ## modules/master.py, MainInstallation launch loop (lines 55-63) -/

/-- The declared parameter names of each public MainInstallation action, as
getfullargspec reads them from the source (lines 74-171). -/
def action_arg_names : String → List String
| "time_set" => ["TIME_ZONE"]
| "locale_set" => ["LANG"]
| "set_networking" => ["COMPUTER_NAME"]
| "make_user" => ["USERNAME", "PASSWORD"]
| "apt" => ["UPDATES", "INTERNET"]
| "set_passwd" => ["PASSWORD"]
| "lightdm_config" => ["LOGIN", "USERNAME"]
| "set_keyboard" => ["MODEL", "LAYOUT", "VARIENT"]
| "remove_launcher" => ["USERNAME"]
| _ => []

/-- The value of `dir(MainInstallation)` with underscore-led names
removed (install, lines 399-402): the nine public actions in sorted order. -/
def main_installation_actions : List String :=
  ["apt", "lightdm_config", "locale_set", "make_user", "remove_launcher",
   "set_keyboard", "set_networking", "set_passwd", "time_set"]

/-- Embeds the launch loop of MainInstallation.__init__ (lines 56-63): for
each action in order, resolve its declared argument names against the
settings dictionary and start the process.  A KeyError while resolving
aborts the loop (and the constructor): earlier actions are already started,
the failing action and every later action are never started.  Returns the
started actions and the propagated exception, if any. -/
def launch_actions (s : Settings) : List String → List String × Option PyErr
| [] => ([], none)
| a :: rest =>
  match resolve_settings_args s (action_arg_names a) with
  | Except.error e => ([], some e)
  | Except.ok _ =>
    let r := launch_actions s rest
    (a :: r.1, r.2)

/-- Boolean success test for argument resolution. -/
def resolve_ok (r : Except PyErr (List PyVal)) : Bool :=
  match r with
  | Except.ok _ => true
  | Except.error _ => false

/-- A settings record carrying every field the nine actions declare except
LANG (the field of locale_set). -/
def c5_settings : Settings :=
  fun k =>
    if k = "LANG" then none
    else if (["TIME_ZONE", "COMPUTER_NAME", "USERNAME", "PASSWORD", "UPDATES",
              "INTERNET", "LOGIN", "MODEL", "LAYOUT", "VARIENT"].contains k)
    then some (PyVal.str "x") else none

/-! ## modules/master.py, completion loop of MainInstallation.__init__ (lines 64-72) -/

/-- CPython private-name mangling: inside a class body, an identifier with
at least two leading underscores and at most one trailing underscore is
rewritten to an underscore, the class name, and the identifier. -/
def py_mangle (cls nm : String) : String :=
  if hasPre ['_', '_'] nm.data && !(hasPre ['_', '_'] nm.data.reverse)
  then "_" ++ cls ++ nm else nm

/-- The module-scope names of modules/master.py after it loads: its imports
(lines 27-44) and its own definitions (lines 46-404). -/
def master_module_names : List String :=
  ["print_function", "argv", "stderr", "Popen", "PIPE", "check_output", "check_call",
   "CalledProcessError", "multiprocessing", "remove", "mkdir", "environ", "symlink",
   "chmod", "listdir", "path", "rmtree", "copyfile", "getfullargspec", "sleep",
   "json", "urllib3", "warnings", "auto_login_set", "set_time", "systemd_boot_config",
   "set_locale", "eprint", "__update__", "MainInstallation", "set_plymouth_theme",
   "_install_bootloader_package", "install_bootloader", "_install_grub",
   "_install_systemd_boot", "setup_lowlevel", "check_systemd_boot", "make_num",
   "install"]

/-- The local names of MainInstallation.__init__ (its parameters and the
variables it assigns, lines 55-72). -/
def init_local_names : List String :=
  ["self", "processes_to_do", "settings", "each1", "process_new", "args_list",
   "args", "percent", "growth", "each"]

/-- Name resolution as seen from inside MainInstallation.__init__: locals,
then module globals, then the `globals()[each1]` process handles the launch
loop registered under the action names (line 62).  Python builtins hold no
underscore-private names, so they are not modelled. -/
def name_resolves_in_init (n : String) : Bool :=
  init_local_names.contains n || master_module_names.contains n
    || main_installation_actions.contains n

/-- The sequence of percentages passed to the progress call by the
completion loop (lines 64-72): starting at percent = 50/n with growth =
50/n, each join reports the current percent and then adds the growth. -/
def progress_reports : Nat → ℚ → ℚ → List ℚ
| 0, _, _ => []
| Nat.succ n, percent, growth => percent :: progress_reports n (percent + growth) growth

/-- The reports of a completion loop over n actions (lines 64-65 give the
initial percent and the growth, both 50 / len(processes_to_do)). -/
def completion_loop_reports (n : Nat) : List ℚ :=
  progress_reports n ((50 : ℚ) / (n : ℚ)) ((50 : ℚ) / (n : ℚ))

/-! ## modules/master.py, kernel artifact sync of check_systemd_boot (lines 338-386) -/

/-- Code-point lexicographic comparison of character lists, as Python
compares strings. -/
def py_str_lt : List Char → List Char → Bool
| [], [] => false
| [], _ :: _ => true
| _ :: _, [] => false
| a :: as, b :: bs => if a = b then py_str_lt as bs else Nat.blt a.val.toNat b.val.toNat

/-- Stable ascending insertion for the Python sorted builtin. -/
def py_insert (x : String) : List String → List String
| [] => [x]
| y :: ys => if py_str_lt y.data x.data then y :: py_insert x ys else x :: y :: ys

/-- The Python sorted builtin on a list of strings: ascending, stable. -/
def py_sorted : List String → List String
| [] => []
| x :: xs => py_insert x (py_sorted xs)

/-- Embeds the artifact selection of check_systemd_boot (lines 344-360):
collect the /boot file names containing the tag, sort them ascending, take
the last; `[-1]` on an empty list raises IndexError. -/
def select_boot_artifact (files : List String) (tag : String) : Option String :=
  (py_sorted (files.filter (fun f => str_in tag f))).getLast?

/-- Embeds one copy step of lines 363-386: copy the selected source into
the managed directory only when the destination does not already exist
(copyfile of a missing source raises FileNotFoundError). -/
def sync_kernel_artifact (fs : FS) (src dest : String) : Except PyErr FS :=
  if fs dest = none then
    match fs src with
    | some c => Except.ok (fs_write fs dest c)
    | none => Except.error (PyErr.fileNotFound src)
  else Except.ok fs

/-! ## Theorems -/

/-- The two entry files live at distinct paths. -/
theorem entry_paths_ne : ¬ (main_entry_path = recovery_entry_path) := by decide

/-- The two entry files live at distinct paths (symmetric form). -/
theorem entry_paths_ne_symm : ¬ (recovery_entry_path = main_entry_path) := by decide

/-- After verification the primary entry file exists. -/
theorem verify_entries_main_present (u : String) (fs : FS) :
    verify_entries u fs main_entry_path ≠ none := by
  by_cases h1 : fs main_entry_path = none <;>
    by_cases h2 : fs recovery_entry_path = none <;>
      simp [verify_entries, fs_write, entry_paths_ne, entry_paths_ne_symm, h1, h2]

/-- After verification the recovery entry file exists. -/
theorem verify_entries_recovery_present (u : String) (fs : FS) :
    verify_entries u fs recovery_entry_path ≠ none := by
  by_cases h1 : fs main_entry_path = none <;>
    by_cases h2 : fs recovery_entry_path = none <;>
      simp [verify_entries, fs_write, entry_paths_ne, entry_paths_ne_symm, h1, h2]

/-- When both entry files already exist, verification changes nothing. -/
theorem verify_entries_of_present (u : String) (fs : FS)
    (h1 : fs main_entry_path ≠ none) (h2 : fs recovery_entry_path ≠ none) :
    verify_entries u fs = fs := by
  simp [verify_entries, h1, h2]

/-- C2 counterexample: for target path "/mnt" (no efivars), the unmount
sequence of de_chroot is NOT the reverse of the mount sequence of
arch_chroot — de_chroot begins with /mnt/proc while the last path mounted
is /mnt/tmp. -/
theorem c2_counterexample :
    de_chroot_unmount_targets "/mnt" false ≠ (chroot_mount_targets "/mnt" false).reverse := by
  decide

/-- C2 amended: for every target path not ending in a slash and every
efivars state, de_chroot unmounts the pseudo-filesystems in exactly the
SAME order as arch_chroot mounted them (proc, sys, efivars when present,
dev, dev/pts, dev/shm, run, tmp), not in reverse order. -/
theorem c2_unmount_same_order (p : String) (e : Bool)
    (h : p.data.getLast? ≠ some '/') :
    de_chroot_unmount_targets p e = chroot_mount_targets p e := by
  simp [de_chroot_unmount_targets, chroot_mount_targets, strip_trailing_slash, h]

/-- C2 witness: the amended statement evaluated at "/mnt" with efivars
present. -/
theorem c2_witness :
    de_chroot_unmount_targets "/mnt" true = chroot_mount_targets "/mnt" true :=
  c2_unmount_same_order "/mnt" true (by decide)

/-- C7: the GRUB parent-disk derivation maps "/dev/sda3" to "/dev/sda" and
"/dev/nvme0n1p2" to "/dev/nvme0n1", as the specification states. -/
theorem c7_grub_parent_disk :
    grub_parent_disk "/dev/sda3" = Except.ok "/dev/sda" ∧
    grub_parent_disk "/dev/nvme0n1p2" = Except.ok "/dev/nvme0n1" := by
  constructor
  · rfl
  · rfl

/-- C8 counterexample: the identifier "refind" is not systemd-boot, contains
no "grub", and is no known u-boot variant, yet install_bootloader selects no
action and returns normally — no UnsupportedBootloaderError (or any other
exception) is raised; no such error type exists in the code. -/
theorem c8_counterexample :
    install_bootloader "refind" "/dev/sda1" "5.4.0" = BootAction.noAction := by
  decide

/-- C8 amended: for every bootloader identifier that is not systemd-boot,
does not contain "grub", and is none of the three u-boot variants,
install_bootloader falls through every branch of its if/elif chain and
returns normally having installed nothing (silent no-op, no error). -/
theorem c8_unknown_silent_noop (b root release : String)
    (h1 : b ≠ "systemd-boot") (h2 : str_in "grub" b = false)
    (h3 : b ≠ "u-boot-rockchip") (h4 : b ≠ "u-boot-rpi") (h5 : b ≠ "u-boot-tegra") :
    install_bootloader b root release = BootAction.noAction := by
  simp [install_bootloader, h1, h2, h3, h4, h5]

/-- C8 witness: the amended statement evaluated at the identifier "lilo". -/
theorem c8_witness :
    install_bootloader "lilo" "/dev/sdb2" "5.10.0" = BootAction.noAction :=
  c8_unknown_silent_noop "lilo" "/dev/sdb2" "5.10.0"
    (by decide) (by decide) (by decide) (by decide) (by decide)

/-- C9: the boot-entry verification step is idempotent — running it twice
with the same UUID yields the same filesystem as running it once — and it
never overwrites an entry file that already exists (a file is only written
when absent). -/
theorem c9_verify_entries_idempotent :
    ∀ (uuid : String) (fs : FS),
      verify_entries uuid (verify_entries uuid fs) = verify_entries uuid fs ∧
      ∀ p, fs p = none ∨ verify_entries uuid fs p = fs p := by
  intro u fs
  constructor
  · exact verify_entries_of_present u (verify_entries u fs)
      (verify_entries_main_present u fs) (verify_entries_recovery_present u fs)
  · intro p
    by_cases hp : fs p = none
    · exact Or.inl hp
    · right
      by_cases pm : p = main_entry_path
      · subst pm
        have h1 : ¬ (fs main_entry_path = none) := hp
        by_cases h2 : fs recovery_entry_path = none <;>
          simp [verify_entries, fs_write, entry_paths_ne, h1, h2]
      · by_cases pr : p = recovery_entry_path
        · subst pr
          have h2 : ¬ (fs recovery_entry_path = none) := hp
          by_cases h1 : fs main_entry_path = none <;>
            simp [verify_entries, fs_write, entry_paths_ne_symm, h1, h2]
        · by_cases h1 : fs main_entry_path = none <;>
            by_cases h2 : fs recovery_entry_path = none <;>
              simp [verify_entries, fs_write, entry_paths_ne_symm, h1, h2, pm, pr]

/-- The VARIENT pass only ever assigns the VARIENT key. -/
theorem default_varient_preserves (s : Settings) (q : String) (h : ¬ (q = "VARIENT")) :
    default_varient s q = s q := by
  cases hv : s "VARIENT" with
  | none => simp [default_varient, hv, set_setting, h]
  | some v =>
    by_cases he : empty_or_none v
    · cases hm : s "MODEL" with
      | none => simp [default_varient, hv, he, hm, set_setting, h]
      | some m =>
        by_cases hne : m = PyVal.str no_config_model
        · simp [default_varient, hv, he, hm, hne, set_setting, h]
        · simp [default_varient, hv, he, hm, hne, set_setting, h]
    · simp [default_varient, hv, he]

/-- The LAYOUT pass only ever assigns the LAYOUT key. -/
theorem default_layout_preserves (s : Settings) (q : String) (h : ¬ (q = "LAYOUT")) :
    default_layout s q = s q := by
  cases hv : s "LAYOUT" with
  | none => simp [default_layout, hv, set_setting, h]
  | some v =>
    by_cases he : empty_or_none v
    · cases hm : s "MODEL" with
      | none => simp [default_layout, hv, he, hm, set_setting, h]
      | some m =>
        by_cases hne : m = PyVal.str no_config_model
        · simp [default_layout, hv, he, hm, hne, set_setting, h]
        · simp [default_layout, hv, he, hm, hne, set_setting, h]
    · simp [default_layout, hv, he]

/-- C10 counterexample: for the record whose MODEL is the no-configuration
literal and whose LAYOUT and VARIENT keys are absent, the defaulting pass
does NOT leave them unchanged — the KeyError handlers fill both with
"English (US)" even though the model is not being configured. -/
theorem c10_counterexample :
    c10_settings "LAYOUT" = none ∧
    keyboard_defaulting c10_settings "LAYOUT" = some (PyVal.str english_us) ∧
    c10_settings "VARIENT" = none ∧
    keyboard_defaulting c10_settings "VARIENT" = some (PyVal.str english_us) := by
  decide

/-- C10 amended: when the keyboard model equals the no-configuration value,
an EMPTY layout/varient value is left unchanged (the in-try model check
works), but an ABSENT layout/varient key is still filled with "English (US)"
because the KeyError handler assigns the default without re-checking the
model. -/
theorem c10_no_config_model_behaviour (s : Settings)
    (hm : s "MODEL" = some (PyVal.str no_config_model)) :
    (s "LAYOUT" = some (PyVal.str "") → keyboard_defaulting s "LAYOUT" = some (PyVal.str "")) ∧
    (s "LAYOUT" = none → keyboard_defaulting s "LAYOUT" = some (PyVal.str english_us)) ∧
    (s "VARIENT" = some (PyVal.str "") → keyboard_defaulting s "VARIENT" = some (PyVal.str "")) ∧
    (s "VARIENT" = none → keyboard_defaulting s "VARIENT" = some (PyVal.str english_us)) := by
  have he : empty_or_none (PyVal.str no_config_model) = false := by decide
  have hdm : default_model s = s := by simp [default_model, hm, he]
  have hl_model : default_layout s "MODEL" = s "MODEL" :=
    default_layout_preserves s "MODEL" (by decide)
  have hl_varient : default_layout s "VARIENT" = s "VARIENT" :=
    default_layout_preserves s "VARIENT" (by decide)
  refine ⟨?_, ?_, ?_, ?_⟩
  · intro hL
    have hdl : default_layout s = s := by
      simp [default_layout, hL, hm]
    rw [keyboard_defaulting, hdm, hdl,
      default_varient_preserves s "LAYOUT" (by decide)]
    exact hL
  · intro hL
    have hdl : default_layout s = set_setting s "LAYOUT" (PyVal.str english_us) := by
      simp [default_layout, hL]
    rw [keyboard_defaulting, hdm, hdl,
      default_varient_preserves _ "LAYOUT" (by decide)]
    simp [set_setting]
  · intro hV
    rw [keyboard_defaulting, hdm]
    have hv2 : default_layout s "VARIENT" = some (PyVal.str "") := by rw [hl_varient, hV]
    have hm2 : default_layout s "MODEL" = some (PyVal.str no_config_model) := by
      rw [hl_model, hm]
    simp [default_varient, hv2, hm2]
  · intro hV
    rw [keyboard_defaulting, hdm]
    have hv2 : default_layout s "VARIENT" = none := by rw [hl_varient, hV]
    simp [default_varient, hv2, set_setting]

/-- C10 witness: the amended statement evaluated at the concrete record with
the no-configuration model and an absent VARIENT key. -/
theorem c10_witness :
    keyboard_defaulting c10_settings "VARIENT" = some (PyVal.str english_us) :=
  (c10_no_config_model_behaviour c10_settings (by decide)).2.2.2 (by decide)

/-- C1 counterexample: when master.install raises between arch_chroot and
de_chroot, the teardown (de_chroot) is NOT executed — configuration_procedure
has no try/finally, so the exception propagates past it with the chroot and
its mounts still in place. -/
theorem c1_counterexample :
    InstallStmt.de_chroot_exit ∉ (run_straight_line c1_fault_outcome chroot_segment).1 ∧
    InstallStmt.arch_chroot_enter ∈ (run_straight_line c1_fault_outcome chroot_segment).1 ∧
    (run_straight_line c1_fault_outcome chroot_segment).2 = some PyErr.typeError := by
  decide

/-- C1 amended: de_chroot is executed only on the normal path — when the
statements before it, master.install included, all return normally.  When
master.install raises, the exception propagates out of
configuration_procedure without the exit sequence running. -/
theorem c1_de_chroot_only_on_normal_return (outcome : InstallStmt → Except PyErr Unit)
    (h1 : outcome InstallStmt.chdir_mnt = Except.ok ())
    (h2 : outcome InstallStmt.arch_chroot_enter = Except.ok ())
    (h3 : outcome (InstallStmt.progress_update 19) = Except.ok ())
    (h4 : outcome InstallStmt.master_install = Except.ok ()) :
    InstallStmt.de_chroot_exit ∈ (run_straight_line outcome chroot_segment).1 := by
  cases h5 : outcome InstallStmt.de_chroot_exit <;>
    simp [run_straight_line, chroot_segment, h1, h2, h3, h4, h5]

/-- C1 witness: the amended statement evaluated at the all-succeed outcome. -/
theorem c1_witness :
    InstallStmt.de_chroot_exit ∈
      (run_straight_line (fun _ => Except.ok ()) chroot_segment).1 :=
  c1_de_chroot_only_on_normal_return (fun _ => Except.ok ()) rfl rfl rfl rfl

/-- C3: for every settings record, the final statement of install fails before
the body of setup_lowlevel can run — either a KeyError from one of the three
settings lookups, or the TypeError from binding three call arguments to
the two parameters of setup_lowlevel — so the kernel/bootloader stage is never
reached through install. -/
theorem c3_install_call_always_raises :
    ∀ s : Settings,
      (install_lowlevel_call s = Except.error PyErr.typeError ∨
        ∃ k, install_lowlevel_call s = Except.error (PyErr.keyError k)) ∧
      ∀ binding, install_lowlevel_call s ≠ Except.ok binding := by
  intro s
  have herr : install_lowlevel_call s = Except.error PyErr.typeError ∨
      ∃ k, install_lowlevel_call s = Except.error (PyErr.keyError k) := by
    cases h1 : s "EFI" with
    | none =>
      right
      exact ⟨"EFI", by
        simp [install_lowlevel_call, resolve_settings_args, install_lowlevel_arg_keys, h1]⟩
    | some v1 =>
      cases h2 : s "ROOT" with
      | none =>
        right
        exact ⟨"ROOT", by
          simp [install_lowlevel_call, resolve_settings_args, install_lowlevel_arg_keys, h1, h2]⟩
      | some v2 =>
        cases h3 : s "bootloader package" with
        | none =>
          right
          exact ⟨"bootloader package", by
            simp [install_lowlevel_call, resolve_settings_args, install_lowlevel_arg_keys,
              h1, h2, h3]⟩
        | some v3 =>
          left
          simp [install_lowlevel_call, resolve_settings_args, install_lowlevel_arg_keys,
            bind_call_args, setup_lowlevel_param_names, h1, h2, h3]
  refine ⟨herr, ?_⟩
  intro binding hok
  rcases herr with h | ⟨k, h⟩ <;> rw [h] at hok <;> simp at hok

/-- C5 counterexample: with every declared field present except LANG, the
launch loop starts apt and lightdm_config, then aborts on locale_set with a
plain KeyError "LANG" — the six remaining sibling actions (set_networking,
time_set, ...) are never launched, contradicting the claim that all siblings
still launch and complete; no MissingSettingError type exists in the code. -/
theorem c5_counterexample :
    launch_actions c5_settings main_installation_actions =
      (["apt", "lightdm_config"], some (PyErr.keyError "LANG")) ∧
    "time_set" ∉ (launch_actions c5_settings main_installation_actions).1 ∧
    "set_networking" ∉ (launch_actions c5_settings main_installation_actions).1 := by
  decide

/-- C5 amended: an action whose declared argument name is absent from the
settings record fails at launch time with KeyError naming the field (before
the action body runs); the actions launched before it keep running, but the
failing action and every action after it in the list are never launched, and
the constructor aborts with the KeyError. -/
theorem c5_missing_field_aborts_launch (s : Settings) (pre post : List String)
    (a : String) (k : String)
    (hpre : ∀ b ∈ pre, resolve_ok (resolve_settings_args s (action_arg_names b)) = true)
    (ha : resolve_settings_args s (action_arg_names a) = Except.error (PyErr.keyError k)) :
    launch_actions s (pre ++ a :: post) = (pre, some (PyErr.keyError k)) := by
  induction pre with
  | nil => simp [launch_actions, ha]
  | cons b bs ih =>
    have hb := hpre b (by simp)
    cases hvb : resolve_settings_args s (action_arg_names b) with
    | error e => rw [hvb] at hb; simp [resolve_ok] at hb
    | ok vs =>
      have hrest := ih (fun b2 hb2 => hpre b2 (by simp [hb2]))
      simp [launch_actions, hvb, hrest]

/-- C5 witness: the amended statement evaluated at the real action list
around locale_set with the LANG-less record. -/
theorem c5_witness :
    launch_actions c5_settings
      (["apt", "lightdm_config"] ++ "locale_set" ::
        ["make_user", "remove_launcher", "set_keyboard", "set_networking",
         "set_passwd", "time_set"]) =
      (["apt", "lightdm_config"], some (PyErr.keyError "LANG")) :=
  c5_missing_field_aborts_launch c5_settings ["apt", "lightdm_config"]
    ["make_user", "remove_launcher", "set_keyboard", "set_networking",
     "set_passwd", "time_set"] "locale_set" "LANG" (by decide) (by rfl)

/-- C4: the progress call of the completion loop is a bug — the loop invokes
__update(percent) (line 71), which CPython mangles inside class
MainInstallation to _MainInstallation__update, a name defined nowhere in
scope, while the intended module-level function is named __update__ (its
name ends in two underscores, so it is not mangled); the first completed
action therefore raises NameError before any progress is printed.  And even
the percent values the loop would have reported (9 actions) advance from
50/9 only up to 50, never reaching 100. -/
theorem c4_progress_loop_name_error :
    py_mangle "MainInstallation" "__update" = "_MainInstallation__update" ∧
    name_resolves_in_init "_MainInstallation__update" = false ∧
    py_mangle "MainInstallation" "__update__" = "__update__" ∧
    name_resolves_in_init "__update__" = true ∧
    (100 : ℚ) ∉ completion_loop_reports main_installation_actions.length ∧
    (completion_loop_reports main_installation_actions.length).getLast? = some 50 := by
  refine ⟨by decide, by decide, by decide, by decide, ?_, ?_⟩
  · simp [completion_loop_reports, progress_reports, main_installation_actions]
    norm_num
  · simp [completion_loop_reports, progress_reports, main_installation_actions]
    norm_num

/-- C6: on the boot-directory listing [vmlinuz-5.4.0-3, vmlinuz-5.10.0-9]
the sort-ascending-take-last policy of the sync step selects vmlinuz-5.4.0-3
(lexicographically "5.4..." sorts after "5.10..."), not the newer
5.10.0-9 that the claim and the comment in the code itself ("the latest version")
expect; the skip-when-destination-exists half of the claim does hold. -/
theorem c6_kernel_artifact_selection :
    select_boot_artifact ["vmlinuz-5.4.0-3", "vmlinuz-5.10.0-9"] "vmlinuz-" =
      some "vmlinuz-5.4.0-3" ∧
    select_boot_artifact ["vmlinuz-5.4.0-3", "vmlinuz-5.10.0-9"] "vmlinuz-" ≠
      some "vmlinuz-5.10.0-9" ∧
    ∀ (fs : FS) (src dest : String),
      fs dest = none ∨ sync_kernel_artifact fs src dest = Except.ok fs := by
  refine ⟨by decide, by decide, ?_⟩
  intro fs src dest
  by_cases h : fs dest = none
  · exact Or.inl h
  · exact Or.inr (by simp [sync_kernel_artifact, h])
